import Mathlib

/-!
Shallow embedding of `server.py` (LinkedIn MCP server): the capability
catalog (`list_tools`), the dispatcher (`call_tool`), and the five
response normalizers.  Upstream JSON payloads are modelled by the `Json`
tree below; Python dynamic attribute/key access is modelled by total
helpers returning `Except String` whose error string stands for the
`str(e)` of the exception the Python runtime would raise.  HTTP traffic
is modelled by an oracle `Request → Except String Json` together with an
explicit log of the requests issued.
-/

/-- A JSON value as produced by `response.json()`.  Numbers are modelled
as integers (no claim under study involves fractional values). -/
inductive Json where
  | null : Json
  | bool : Bool → Json
  | num : Int → Json
  | str : String → Json
  | arr : List Json → Json
  | obj : List (String × Json) → Json
deriving Repr, BEq

/-- Python type name of a value, as it appears in exception messages. -/
def pyTypeName : Json → String
  | .null => "\x27NoneType\x27"
  | .bool _ => "\x27bool\x27"
  | .num _ => "\x27int\x27"
  | .str _ => "\x27str\x27"
  | .arr _ => "\x27list\x27"
  | .obj _ => "\x27dict\x27"

/-- Python truthiness of a value (`if x:`). -/
def pyTruthy : Json → Bool
  | .null => false
  | .bool b => b
  | .num n => n != 0
  | .str s => !s.isEmpty
  | .arr xs => !xs.isEmpty
  | .obj fs => !fs.isEmpty

mutual
/-- Python `repr` of a value.  String contents are reproduced verbatim
between single quotes (escaping refinements of `repr` are not modelled;
no theorem depends on them). -/
def pyRepr : Json → String
  | .null => "None"
  | .bool b => if b then "True" else "False"
  | .num n => toString n
  | .str s => "\x27" ++ s ++ "\x27"
  | .arr xs => "[" ++ pyReprElems xs ++ "]"
  | .obj fs => "\x7b" ++ pyReprFields fs ++ "\x7d"

/-- Comma-separated `repr` of list elements. -/
def pyReprElems : List Json → String
  | [] => ""
  | [x] => pyRepr x
  | x :: y :: xs => pyRepr x ++ ", " ++ pyReprElems (y :: xs)

/-- Comma-separated `repr` of dict entries. -/
def pyReprFields : List (String × Json) → String
  | [] => ""
  | [f] => "\x27" ++ f.1 ++ "\x27: " ++ pyRepr f.2
  | f :: g :: fs => "\x27" ++ f.1 ++ "\x27: " ++ pyRepr f.2 ++ ", " ++ pyReprFields (g :: fs)
end

/-- Python `str()` of a value, as used by f-string interpolation. -/
def pyStr : Json → String
  | .str s => s
  | .null => "None"
  | .bool b => if b then "True" else "False"
  | .num n => toString n
  | .arr xs => pyRepr (.arr xs)
  | .obj fs => pyRepr (.obj fs)

/-- Whether `needle` occurs at the start of `hay`. -/
def startsWithChars : List Char → List Char → Bool
  | [], _ => true
  | _ :: _, [] => false
  | a :: as, b :: bs => a = b && startsWithChars as bs

/-- Whether `needle` occurs anywhere in `hay`. -/
def containsChars (needle : List Char) : List Char → Bool
  | [] => startsWithChars needle []
  | c :: rest => startsWithChars needle (c :: rest) || containsChars needle rest

/-- Python substring test `needle in hay` on strings. -/
def strContains (needle hay : String) : Bool :=
  containsChars needle.toList hay.toList

/-- Whether string `s` begins with the string `p`. -/
def strStarts (p s : String) : Bool :=
  startsWithChars p.toList s.toList

/-- Python `x.get(k, d)`: defaulting key lookup on a dict; on any
non-dict receiver the corresponding `AttributeError` is raised. -/
def pyGet (j : Json) (k : String) (d : Json) : Except String Json :=
  match j with
  | .obj fs => .ok ((fs.lookup k).getD d)
  | _ => .error (pyTypeName j ++ " object has no attribute \x27get\x27")

/-- Python `k in j` for a string `k`: key test on dicts, membership on
lists, substring test on strings, `TypeError` otherwise. -/
def pyInKey (k : String) (j : Json) : Except String Bool :=
  match j with
  | .obj fs => .ok (fs.lookup k).isSome
  | .arr xs => .ok (xs.contains (Json.str k))
  | .str s => .ok (strContains k s)
  | _ => .error ("TypeError: argument of type " ++ pyTypeName j ++ " is not iterable")

/-- Python `j[k]` for a string key `k`. -/
def pyIndexKey (j : Json) (k : String) : Except String Json :=
  match j with
  | .obj fs =>
    match fs.lookup k with
    | some v => .ok v
    | none => .error ("\x27" ++ k ++ "\x27")
  | .arr _ => .error "TypeError: list indices must be integers or slices, not str"
  | .str _ => .error "TypeError: string indices must be integers"
  | _ => .error ("TypeError: " ++ pyTypeName j ++ " object is not subscriptable")

/-- Python `for x in j`: the list of iterated values (dicts yield their
keys, strings their characters), or the `TypeError` Python raises. -/
def pyIter (j : Json) : Except String (List Json) :=
  match j with
  | .arr xs => .ok xs
  | .obj fs => .ok (fs.map (fun f => Json.str f.1))
  | .str s => .ok (s.toList.map (fun c => Json.str (String.singleton c)))
  | _ => .error ("TypeError: " ++ pyTypeName j ++ " object is not iterable")

/-- Python list slice `xs[:n]` for an integer bound `n` (negative bounds
count from the end, clamped at zero). -/
def pySliceTo {α : Type} (xs : List α) (n : Int) : List α :=
  if 0 ≤ n then xs.take n.toNat else xs.take ((xs.length : Int) + n).toNat

/-- A slice bound as Python accepts it: an `int` (`bool` included, being
an `int` subclass), or `None` for an open bound. -/
def pySliceBound : Json → Except String (Option Int)
  | .num n => .ok (some n)
  | .bool b => .ok (some (if b then 1 else 0))
  | .null => .ok none
  | _ => .error "TypeError: slice indices must be integers or None or have an __index__ method"

/-- Python `j[:b]` on a value `j`. -/
def pySliceJson (j : Json) (b : Option Int) : Except String Json :=
  match j, b with
  | .arr xs, some n => .ok (.arr (pySliceTo xs n))
  | .arr xs, none => .ok (.arr xs)
  | .str s, some n => .ok (.str (String.mk (pySliceTo s.toList n)))
  | .str s, none => .ok (.str s)
  | .obj _, _ => .error "TypeError: unhashable type: \x27slice\x27"
  | j, _ => .error ("TypeError: " ++ pyTypeName j ++ " object is not subscriptable")

/-- Split a character list at every occurrence of `c`, keeping empty
pieces, as Python `s.split(c)` does for a one-character separator. -/
def splitChar (c : Char) : List Char → List (List Char)
  | [] => [[]]
  | x :: rest =>
    match splitChar c rest with
    | [] => [[x]]
    | h :: t => if x = c then [] :: h :: t else (x :: h) :: t

/-- Python `s.split(sep)` for a one-character separator `sep`. -/
def pySplit (s : String) (c : Char) : List String :=
  (splitChar c s.toList).map String.mk

/-- Sequential mapping over `Except`, modelling a Python
`for`-loop that appends one produced record per element and lets the
first raised exception abort the loop. -/
def exceptMapM (f : Json → Except String Json) : List Json → Except String (List Json)
  | [] => .ok []
  | x :: xs =>
    match f x with
    | .error e => .error e
    | .ok y =>
      match exceptMapM f xs with
      | .error e => .error e
      | .ok ys => .ok (y :: ys)

/-- Value of an `ok` result (`Json.null` on `error`; used only under an
`isOk` hypothesis). -/
def okVal : Except String Json → Json
  | .ok v => v
  | .error _ => Json.null

/-- Whether a `Json` value is a dict. -/
def Json.isObj : Json → Bool
  | .obj _ => true
  | _ => false

/-- One hexadecimal digit, lowercase, as `json.dumps` emits. -/
def hexDigit (n : Nat) : Char :=
  if n < 10 then Char.ofNat (48 + n) else Char.ofNat (87 + n)

/-- Four-digit hexadecimal rendering of `n`, as in a `\uXXXX` escape. -/
def hex4 (n : Nat) : String :=
  String.mk [hexDigit (n / 4096 % 16), hexDigit (n / 256 % 16),
             hexDigit (n / 16 % 16), hexDigit (n % 16)]

/-- Escape of one character inside a JSON string literal, following
`json.dumps` with its default `ensure_ascii=True` (non-ASCII characters
become `\uXXXX`, astral characters a surrogate pair). -/
def jsonEscChar (c : Char) : String :=
  let n := c.toNat
  if c = Char.ofNat 34 then "\\\""
  else if c = Char.ofNat 92 then "\\\\"
  else if c = Char.ofNat 10 then "\\n"
  else if c = Char.ofNat 9 then "\\t"
  else if c = Char.ofNat 13 then "\\r"
  else if n = 8 then "\\b"
  else if n = 12 then "\\f"
  else if n < 32 then "\\u" ++ hex4 n
  else if n < 127 then String.singleton c
  else if n < 65536 then "\\u" ++ hex4 n
  else "\\u" ++ hex4 (55296 + (n - 65536) / 1024) ++ "\\u" ++ hex4 (56320 + (n - 65536) % 1024)

/-- Escaped body of a JSON string literal. -/
def jsonEscape (s : String) : String :=
  String.join (s.toList.map jsonEscChar)

/-- `json.dumps` of a Python string. -/
def dumpsStr (s : String) : String :=
  "\"" ++ jsonEscape s ++ "\""

/-- Indentation of `json.dumps(..., indent=2)` at nesting depth `d`. -/
def dumpsPad (d : Nat) : String :=
  String.mk (List.replicate (2 * d) (Char.ofNat 32))

mutual
/-- `json.dumps(v, indent=2)` at nesting depth `d`. -/
def dumpsVal (d : Nat) : Json → String
  | .null => "null"
  | .bool b => if b then "true" else "false"
  | .num n => toString n
  | .str s => dumpsStr s
  | .arr [] => "[]"
  | .arr (x :: xs) => "[\n" ++ dumpsElems (d + 1) x xs ++ "\n" ++ dumpsPad d ++ "]"
  | .obj [] => "\x7b\x7d"
  | .obj (f :: fs) => "\x7b\n" ++ dumpsFields (d + 1) f fs ++ "\n" ++ dumpsPad d ++ "\x7d"
termination_by j => sizeOf j

/-- Comma-and-newline separated items of an indented JSON array. -/
def dumpsElems (d : Nat) : Json → List Json → String
  | x, [] => dumpsPad d ++ dumpsVal d x
  | x, y :: ys => dumpsPad d ++ dumpsVal d x ++ ",\n" ++ dumpsElems d y ys
termination_by x xs => sizeOf x + sizeOf xs

/-- Comma-and-newline separated entries of an indented JSON object. -/
def dumpsFields (d : Nat) : (String × Json) → List (String × Json) → String
  | (k, v), [] => dumpsPad d ++ dumpsStr k ++ ": " ++ dumpsVal d v
  | (k, v), g :: gs => dumpsPad d ++ dumpsStr k ++ ": " ++ dumpsVal d v ++ ",\n" ++ dumpsFields d g gs
termination_by f fs => sizeOf f + sizeOf fs
end

/-- `json.dumps(result, indent=2)` as performed by `call_tool`. -/
def pyJsonDumps (v : Json) : String :=
  dumpsVal 0 v

/-- One upstream HTTP GET as issued by the tool methods: target URL and
query parameters. -/
structure Request where
  url : String
  params : List (String × Json)
deriving Repr, BEq

/-- The upstream service: maps a request to the parsed JSON body, or to
the message of the exception `raise_for_status()` / `response.json()`
raises for it. -/
def Oracle : Type := Request → Except String Json

/-- A `TextContent` protocol item as returned by `call_tool`. -/
structure TextContent where
  type : String
  text : String
deriving Repr, BEq

/-- Username extraction of `get_profile_by_url`:
`username = profile_url.split('/')[-1].split('?')[0]`, then
`if 'linkedin.com' not in username: username = profile_url`. -/
def extractUsername (profile_url : String) : String :=
  let username := (pySplit ((pySplit profile_url (Char.ofNat 47)).getLastD "") (Char.ofNat 63)).headD ""
  if !(strContains "linkedin.com" username) then profile_url else username

/-- One element of the experience loop of `get_profile_by_url`. -/
def positionRecord (pos : Json) : Except String Json := do
  let title ← pyGet pos "title" (Json.str "")
  let company ← pyGet pos "companyName" (Json.str "")
  let description ← pyGet pos "description" (Json.str "")
  let location ← pyGet pos "locationName" (Json.str "")
  let base := [("title", title), ("company", company),
               ("description", description), ("location", location)]
  let hasTimePeriod ← pyInKey "timePeriod" pos
  if hasTimePeriod then do
    let time_period ← pyIndexKey pos "timePeriod"
    let hasStart ← pyInKey "startDate" time_period
    let withStart ←
      if hasStart then do
        let start ← pyIndexKey time_period "startDate"
        let m ← pyGet start "month" (Json.str "")
        let y ← pyGet start "year" (Json.str "")
        pure (base ++ [("start_date", Json.str (pyStr m ++ "/" ++ pyStr y))])
      else pure base
    let hasEnd ← pyInKey "endDate" time_period
    if hasEnd then do
      let endd ← pyIndexKey time_period "endDate"
      let m ← pyGet endd "month" (Json.str "")
      let y ← pyGet endd "year" (Json.str "")
      pure (Json.obj (withStart ++ [("end_date", Json.str (pyStr m ++ "/" ++ pyStr y))]))
    else pure (Json.obj withStart)
  else pure (Json.obj base)

/-- One element of the education loop of `get_profile_by_url`. -/
def schoolRecord (school : Json) : Except String Json := do
  let schoolName ← pyGet school "schoolName" (Json.str "")
  let degree ← pyGet school "degreeName" (Json.str "")
  let field ← pyGet school "fieldOfStudy" (Json.str "")
  pure (Json.obj [("school", schoolName), ("degree", degree), ("field", field)])

/-- Normalization performed by `get_profile_by_url` on the parsed
`profileView` response `data`, for the already-extracted `username`. -/
def normalizeProfileView (data : Json) (username : String) : Except String Json := do
  let profile_data ← pyGet data "profile" (Json.obj [])
  let firstName ← pyGet profile_data "firstName" (Json.str "")
  let lastName ← pyGet profile_data "lastName" (Json.str "")
  let headline ← pyGet profile_data "headline" (Json.str "")
  let summary ← pyGet profile_data "summary" (Json.str "")
  let location ← pyGet profile_data "locationName" (Json.str "")
  let industry ← pyGet profile_data "industryName" (Json.str "")
  let positionView ← pyGet data "positionView" (Json.obj [])
  let posElems ← pyGet positionView "elements" (Json.arr [])
  let positions ← pyIter posElems
  let experience ← exceptMapM positionRecord positions
  let educationView ← pyGet data "educationView" (Json.obj [])
  let eduElems ← pyGet educationView "elements" (Json.arr [])
  let schools ← pyIter eduElems
  let education ← exceptMapM schoolRecord schools
  let skillView ← pyGet data "skillView" (Json.obj [])
  let skillElems ← pyGet skillView "elements" (Json.arr [])
  let skillsSliced ← pySliceJson skillElems (some 10)
  let skillsIter ← pyIter skillsSliced
  let skills ← exceptMapM (fun skill => pyGet skill "name" (Json.str "")) skillsIter
  pure (Json.obj [
    ("name", Json.str (pyStr firstName ++ " " ++ pyStr lastName)),
    ("headline", headline),
    ("summary", summary),
    ("location", location),
    ("industry", industry),
    ("profile_url", Json.str ("https://www.linkedin.com/in/" ++ username)),
    ("experience", Json.arr experience),
    ("education", Json.arr education),
    ("skills", Json.arr skills)])

/-- `get_profile_by_url`: extracts a username from the argument, issues
one `profileView` GET, and normalizes the response.  The argument is the
raw invocation value; a non-string raises `AttributeError` at
`profile_url.split` as in Python. -/
def get_profile_by_url (oracle : Oracle) (profile_url : Json) :
    Except String Json × List Request :=
  match profile_url with
  | .str s =>
    let username := extractUsername s
    let req : Request :=
      ⟨"https://www.linkedin.com/voyager/api/identity/profiles/" ++ username ++ "/profileView", []⟩
    match oracle req with
    | .error e => (.error e, [req])
    | .ok data => (normalizeProfileView data username, [req])
  | v => (.error (pyTypeName v ++ " object has no attribute \x27split\x27"), [])

/-- Python `profile.update(detailed)` on dicts: existing keys are
overwritten in place, new keys appended in order. -/
def dictUpdate (a b : Json) : Json :=
  match a, b with
  | .obj fa, .obj fb =>
    .obj (fb.foldl (fun acc kv =>
      if (acc.lookup kv.1).isSome then
        acc.map (fun f => if f.1 = kv.1 then (kv.1, kv.2) else f)
      else acc ++ [kv]) fa)
  | _, _ => a

/-- `get_my_profile`: fetches `/voyager/api/me`, builds the basic
record, and when a truthy `publicIdentifier` is present merges the
detailed record of `get_profile_by_url` over it. -/
def get_my_profile (oracle : Oracle) : Except String Json × List Request :=
  let req : Request := ⟨"https://www.linkedin.com/voyager/api/me", []⟩
  match oracle req with
  | .error e => (.error e, [req])
  | .ok data =>
    let basic : Except String Json := do
      let firstName ← pyGet data "firstName" (Json.str "")
      let lastName ← pyGet data "lastName" (Json.str "")
      let headline ← pyGet data "headline" (Json.str "")
      let publicIdentifier ← pyGet data "publicIdentifier" (Json.str "")
      pure (Json.obj [
        ("name", Json.str (pyStr firstName ++ " " ++ pyStr lastName)),
        ("headline", headline),
        ("publicIdentifier", publicIdentifier),
        ("profile_url", Json.str ("https://www.linkedin.com/in/" ++ pyStr publicIdentifier))])
    match basic with
    | .error e => (.error e, [req])
    | .ok profile =>
      match pyGet data "publicIdentifier" Json.null with
      | .error e => (.error e, [req])
      | .ok username =>
        if pyTruthy username then
          match get_profile_by_url oracle username with
          | (.error e, reqs) => (.error e, req :: reqs)
          | (.ok detailed, reqs) => (.ok (dictUpdate profile detailed), req :: reqs)
        else (.ok profile, [req])

/-- One element of the results loop of `search_profiles`. -/
def searchProfileRecord (element : Json) : Except String Json := do
  let hitInfo ← pyGet element "hitInfo" (Json.obj [])
  let profile ← pyGet hitInfo "*profile" (Json.obj [])
  let firstName ← pyGet profile "firstName" (Json.str "")
  let lastName ← pyGet profile "lastName" (Json.str "")
  let headline ← pyGet profile "headline" (Json.str "")
  let geoLocationName ← pyGet profile "geoLocationName" (Json.str "")
  let publicIdentifier ← pyGet profile "publicIdentifier" (Json.str "")
  pure (Json.obj [
    ("name", Json.str (pyStr firstName ++ " " ++ pyStr lastName)),
    ("headline", headline),
    ("location", geoLocationName),
    ("public_id", publicIdentifier),
    ("profile_url", Json.str ("https://www.linkedin.com/in/" ++ pyStr publicIdentifier))])

/-- Post-response normalization of `search_profiles`. -/
def normalizeSearchProfiles (data : Json) : Except String Json := do
  let elemsJ ← pyGet data "elements" (Json.arr [])
  let elements ← pyIter elemsJ
  let results ← exceptMapM searchProfileRecord elements
  pure (Json.obj [("count", Json.num results.length), ("results", Json.arr results)])

/-- `search_profiles`: one blended-search GET with the limit forwarded
as the `count` query parameter, then normalization. -/
def search_profiles (oracle : Oracle) (query limit : Json) :
    Except String Json × List Request :=
  let req : Request := ⟨"https://www.linkedin.com/voyager/api/search/blended",
    [("keywords", query),
     ("filters", Json.str "List(resultType->PEOPLE)"),
     ("queryContext", Json.str "List(spellCorrectionEnabled->true)"),
     ("count", limit)]⟩
  match oracle req with
  | .error e => (.error e, [req])
  | .ok data => (normalizeSearchProfiles data, [req])

/-- One element of the jobs loop of `search_jobs`. -/
def searchJobRecord (element : Json) : Except String Json := do
  let hitInfo ← pyGet element "hitInfo" (Json.obj [])
  let job ← pyGet hitInfo "*jobPosting" (Json.obj [])
  let title ← pyGet job "title" (Json.str "")
  let company ← pyGet job "companyName" (Json.str "")
  let location ← pyGet job "formattedLocation" (Json.str "")
  let jobPostingId ← pyGet job "jobPostingId" (Json.str "")
  let posted ← pyGet job "listedAt" (Json.str "")
  pure (Json.obj [
    ("title", title),
    ("company", company),
    ("location", location),
    ("job_url", Json.str ("https://www.linkedin.com/jobs/view/" ++ pyStr jobPostingId)),
    ("posted", posted)])

/-- Post-response normalization of `search_jobs`. -/
def normalizeSearchJobs (data : Json) : Except String Json := do
  let elemsJ ← pyGet data "elements" (Json.arr [])
  let elements ← pyIter elemsJ
  let jobs ← exceptMapM searchJobRecord elements
  pure (Json.obj [("count", Json.num jobs.length), ("jobs", Json.arr jobs)])

/-- `search_jobs`: one blended-search GET (the `location` parameter is
added only when truthy, the limit is forwarded as `count`), then
normalization. -/
def search_jobs (oracle : Oracle) (keywords location limit : Json) :
    Except String Json × List Request :=
  let params := [("keywords", keywords), ("count", limit)] ++
    (if pyTruthy location then [("location", location)] else [])
  let req : Request := ⟨"https://www.linkedin.com/voyager/api/search/blended",
    params ++ [("filters", Json.str "List(resultType->JOBS)"),
               ("queryContext", Json.str "List(spellCorrectionEnabled->true)")]⟩
  match oracle req with
  | .error e => (.error e, [req])
  | .ok data => (normalizeSearchJobs data, [req])

/-- One element of the connections loop of `get_my_connections`. -/
def connectionRecord (element : Json) : Except String Json := do
  let conn ← pyGet element "connectedMember" (Json.obj [])
  let firstName ← pyGet conn "firstName" (Json.str "")
  let lastName ← pyGet conn "lastName" (Json.str "")
  let headline ← pyGet conn "headline" (Json.str "")
  let publicIdentifier ← pyGet conn "publicIdentifier" (Json.str "")
  pure (Json.obj [
    ("name", Json.str (pyStr firstName ++ " " ++ pyStr lastName)),
    ("headline", headline),
    ("profile_url", Json.str ("https://www.linkedin.com/in/" ++ pyStr publicIdentifier))])

/-- Post-response normalization of `get_my_connections`. -/
def normalizeConnections (data : Json) : Except String Json := do
  let elemsJ ← pyGet data "elements" (Json.arr [])
  let elements ← pyIter elemsJ
  let connections ← exceptMapM connectionRecord elements
  pure (Json.obj [("count", Json.num connections.length),
                  ("connections", Json.arr connections)])

/-- `get_my_connections`: one connections GET with the limit forwarded
as `count`, then normalization. -/
def get_my_connections (oracle : Oracle) (limit : Json) :
    Except String Json × List Request :=
  let req : Request := ⟨"https://www.linkedin.com/voyager/api/relationships/connections",
    [("count", limit)]⟩
  match oracle req with
  | .error e => (.error e, [req])
  | .ok data => (normalizeConnections data, [req])

/-- One element of the posts loop of `get_feed`: a post starts as
all-empty strings, and its `text` is filled only by drilling through
`value` → `com.linkedin.voyager.feed.render.UpdateV2` → `commentary` →
`text` → `text`. -/
def feedPost (element : Json) : Except String Json := do
  let hasValue ← pyInKey "value" element
  if hasValue then do
    let value ← pyIndexKey element "value"
    let hasUpdate ← pyInKey "com.linkedin.voyager.feed.render.UpdateV2" value
    if hasUpdate then do
      let update ← pyIndexKey value "com.linkedin.voyager.feed.render.UpdateV2"
      let commentary ← pyGet update "commentary" (Json.obj [])
      let textObj ← pyGet commentary "text" (Json.obj [])
      let text ← pyGet textObj "text" (Json.str "")
      pure (Json.obj [("text", text), ("author", Json.str ""), ("timestamp", Json.str "")])
    else
      pure (Json.obj [("text", Json.str ""), ("author", Json.str ""), ("timestamp", Json.str "")])
  else
    pure (Json.obj [("text", Json.str ""), ("author", Json.str ""), ("timestamp", Json.str "")])

/-- Post-response normalization of `get_feed`: iterates
`elements[:limit]` and reports `count = len(posts)`. -/
def normalizeFeed (data : Json) (limit : Json) : Except String Json := do
  let elemsJ ← pyGet data "elements" (Json.arr [])
  let bound ← pySliceBound limit
  let sliced ← pySliceJson elemsJ bound
  let elements ← pyIter sliced
  let posts ← exceptMapM feedPost elements
  pure (Json.obj [("count", Json.num posts.length), ("posts", Json.arr posts)])

/-- `get_feed`: one feed GET with the limit forwarded as `count`, then
normalization truncated to `limit`. -/
def get_feed (oracle : Oracle) (limit : Json) : Except String Json × List Request :=
  let req : Request := ⟨"https://www.linkedin.com/voyager/api/feed/updates",
    [("count", limit)]⟩
  match oracle req with
  | .error e => (.error e, [req])
  | .ok data => (normalizeFeed data limit, [req])

/-- A tool entry as registered by `list_tools`. -/
structure Tool where
  name : String
  description : String
  inputSchema : Json
deriving Repr, BEq

/-- The capability catalog returned by `LinkedInMCPServer.list_tools`,
in source order. -/
def list_tools : List Tool := [
  ⟨"get_my_profile",
   "Get your LinkedIn profile information including name, headline, summary, experience, education, and skills",
   Json.obj [
     ("type", Json.str "object"),
     ("properties", Json.obj []),
     ("required", Json.arr [])]⟩,
  ⟨"get_profile_by_url",
   "Get information from any LinkedIn profile by its URL (e.g., linkedin.com/in/username)",
   Json.obj [
     ("type", Json.str "object"),
     ("properties", Json.obj [
       ("profile_url", Json.obj [
         ("type", Json.str "string"),
         ("description", Json.str "Full LinkedIn profile URL or username (e.g., \x27linkedin.com/in/johndoe\x27 or \x27johndoe\x27)")])]),
     ("required", Json.arr [Json.str "profile_url"])]⟩,
  ⟨"search_profiles",
   "Search for LinkedIn profiles by name, title, company, or keywords",
   Json.obj [
     ("type", Json.str "object"),
     ("properties", Json.obj [
       ("query", Json.obj [
         ("type", Json.str "string"),
         ("description", Json.str "Search query (name, job title, company, keywords)")]),
       ("limit", Json.obj [
         ("type", Json.str "number"),
         ("description", Json.str "Number of results to return (default: 10)"),
         ("default", Json.num 10)])]),
     ("required", Json.arr [Json.str "query"])]⟩,
  ⟨"search_jobs",
   "Search for job postings on LinkedIn",
   Json.obj [
     ("type", Json.str "object"),
     ("properties", Json.obj [
       ("keywords", Json.obj [
         ("type", Json.str "string"),
         ("description", Json.str "Job search keywords (e.g., \x27software engineer\x27, \x27data analyst\x27)")]),
       ("location", Json.obj [
         ("type", Json.str "string"),
         ("description", Json.str "Location for job search (e.g., \x27San Francisco\x27, \x27Remote\x27)"),
         ("default", Json.str "")]),
       ("limit", Json.obj [
         ("type", Json.str "number"),
         ("description", Json.str "Number of results (default: 10)"),
         ("default", Json.num 10)])]),
     ("required", Json.arr [Json.str "keywords"])]⟩,
  ⟨"get_my_connections",
   "Get a list of your LinkedIn connections",
   Json.obj [
     ("type", Json.str "object"),
     ("properties", Json.obj [
       ("limit", Json.obj [
         ("type", Json.str "number"),
         ("description", Json.str "Number of connections to retrieve (default: 20)"),
         ("default", Json.num 20)])]),
     ("required", Json.arr [])]⟩,
  ⟨"get_feed",
   "Get recent posts from your LinkedIn feed",
   Json.obj [
     ("type", Json.str "object"),
     ("properties", Json.obj [
       ("limit", Json.obj [
         ("type", Json.str "number"),
         ("description", Json.str "Number of posts to retrieve (default: 10)"),
         ("default", Json.num 10)])]),
     ("required", Json.arr [])]⟩]

/-- Declared `type` of each parameter in an input schema's
`properties` mapping. -/
def schemaParamTypes (schema : Json) : List Json :=
  match schema with
  | .obj fs =>
    match fs.lookup "properties" with
    | some (.obj ps) =>
      ps.map (fun p =>
        match p.2 with
        | .obj pf => (pf.lookup "type").getD Json.null
        | _ => Json.null)
    | _ => []
  | _ => []

/-- Truthiness of `self.li_at_cookie`: the environment value is absent
(`None`) or an empty string exactly when `not self.li_at_cookie`. -/
def cookieTruthy : Option String → Bool
  | none => false
  | some s => !s.isEmpty

/-- Python dict index `arguments[k]` (`str(KeyError)` is the repr of the
missing key). -/
def dictIndex (args : List (String × Json)) (k : String) : Except String Json :=
  match args.lookup k with
  | some v => .ok v
  | none => .error ("\x27" ++ k ++ "\x27")

/-- Python `arguments.get(k, d)` on the arguments dict. -/
def dictGet (args : List (String × Json)) (k : String) (d : Json) : Json :=
  (args.lookup k).getD d

/-- The message returned when the session cookie is unset. -/
def missingCookieText : String :=
  "Error: LINKEDIN_SESSION_COOKIE environment variable not set. Please configure your LinkedIn session cookie."

/-- The hint appended to every caught-exception message. -/
def cookieHintText : String :=
  "\n\nMake sure your LinkedIn session cookie is valid and not expired."

/-- `LinkedInMCPServer.call_tool`: checks the credential, dispatches on
the tool name, serializes the result, and converts any raised exception
into an `Error: ...` text.  Returns the protocol items together with the
log of upstream requests issued. -/
def call_tool (li_at_cookie : Option String) (oracle : Oracle)
    (name : String) (arguments : List (String × Json)) :
    List TextContent × List Request :=
  if !(cookieTruthy li_at_cookie) then
    ([⟨"text", missingCookieText⟩], [])
  else
    let step : Except String Json × List Request :=
      if name = "get_my_profile" then
        get_my_profile oracle
      else if name = "get_profile_by_url" then
        match dictIndex arguments "profile_url" with
        | .error e => (.error e, [])
        | .ok profile_url => get_profile_by_url oracle profile_url
      else if name = "search_profiles" then
        match dictIndex arguments "query" with
        | .error e => (.error e, [])
        | .ok query => search_profiles oracle query (dictGet arguments "limit" (Json.num 10))
      else if name = "search_jobs" then
        match dictIndex arguments "keywords" with
        | .error e => (.error e, [])
        | .ok keywords =>
          search_jobs oracle keywords (dictGet arguments "location" (Json.str ""))
            (dictGet arguments "limit" (Json.num 10))
      else if name = "get_my_connections" then
        get_my_connections oracle (dictGet arguments "limit" (Json.num 20))
      else if name = "get_feed" then
        get_feed oracle (dictGet arguments "limit" (Json.num 10))
      else
        (.ok (Json.str ("Unknown tool: " ++ name)), [])
    match step with
    | (.ok result, reqs) => ([⟨"text", pyJsonDumps result⟩], reqs)
    | (.error e, reqs) => ([⟨"text", "Error: " ++ e ++ cookieHintText⟩], reqs)

/-- Decidability of bounded quantification over a list of `Json` values
(the generic instance is not found automatically for this nested
inductive). -/
instance decidableBAllJson (p : Json → Prop) [DecidablePred p] (l : List Json) :
    Decidable (∀ x ∈ l, p x) := List.decidableBAll p l

/-- A feed element that lacks the nested update-rendering variant key:
either no `value` entry, or a `value` dict without the
`com.linkedin.voyager.feed.render.UpdateV2` key. -/
def lacksUpdateVariant (e : Json) : Bool :=
  match e with
  | .obj fs =>
    match fs.lookup "value" with
    | none => true
    | some (.obj vs) => (vs.lookup "com.linkedin.voyager.feed.render.UpdateV2").isNone
    | some _ => false
  | _ => false

/-- The all-empty feed post record. -/
def emptyFeedPost : Json :=
  Json.obj [("text", Json.str ""), ("author", Json.str ""), ("timestamp", Json.str "")]

/-- Message of Python `str(KeyError(k))`: the repr of the missing
key. -/
def pyKeyErrorMsg (k : String) : String := "\x27" ++ k ++ "\x27"

/-- The keys the normalizers subscript with `[]` (each use guarded by a
membership test); every other key access is a defaulting `.get`. -/
def subscriptedKeys : List String :=
  ["value", "com.linkedin.voyager.feed.render.UpdateV2",
   "timePeriod", "startDate", "endDate"]

/-- Whether an error message is a type-confusion failure: a `TypeError`
or an `AttributeError`, the only exceptions a present-but-untraversable
value can produce inside the normalizers. -/
def isTypeConfusionError (e : String) : Bool :=
  strStarts "TypeError: " e || strContains " object has no attribute " e

/-- Outcome discipline of a normalizer step: success, or failure by
type confusion only — never the `str(KeyError)` of a missing key. -/
def okOrTypeConfusion {α : Type} : Except String α → Bool
  | .ok _ => true
  | .error e => isTypeConfusionError e

theorem except_bind_ok {α β : Type} (a : α) (f : α → Except String β) :
    (Except.ok a >>= f) = f a := rfl

theorem except_pure {α : Type} (a : α) : (pure a : Except String α) = Except.ok a := rfl

/-- A loop whose every iteration succeeds collects exactly the list of
per-element records. -/
theorem exceptMapM_eq_map (f : Json → Except String Json) :
    ∀ l : List Json, l.all (fun a => (f a).isOk) = true →
      exceptMapM f l = Except.ok (l.map (fun a => okVal (f a)))
  | [], _ => rfl
  | x :: xs, h => by
    rw [List.all_cons, Bool.and_eq_true] at h
    have hxs := exceptMapM_eq_map f xs h.2
    cases hfx : f x with
    | error e =>
      have := h.1
      rw [hfx] at this
      simp [Except.isOk, Except.toBool] at this
    | ok y => simp [exceptMapM, hfx, hxs, okVal]

/-- A loop stopped by no exception returns one record per input
element. -/
theorem exceptMapM_ok_length (f : Json → Except String Json) :
    ∀ (l : List Json) (ys : List Json), exceptMapM f l = Except.ok ys → ys.length = l.length
  | [], ys, h => by
    simp [exceptMapM] at h
    rw [← h]
  | x :: xs, ys, h => by
    rw [exceptMapM] at h
    cases hfx : f x with
    | error e => rw [hfx] at h; simp at h
    | ok y =>
      rw [hfx] at h
      cases hxs : exceptMapM f xs with
      | error e => rw [hxs] at h; simp at h
      | ok zs =>
        rw [hxs] at h
        simp at h
        rw [← h]
        simp [exceptMapM_ok_length f xs zs hxs]

theorem string_data_append (a b : String) : (a ++ b).data = a.data ++ b.data := by
  cases a; cases b; rfl

/-- A JSON-serialized string opens with a quote, so it never begins with
the failure marker. -/
theorem strStarts_dumpsStr (s : String) : strStarts "Error: " (dumpsStr s) = false := by
  have h : (dumpsStr s).toList = Char.ofNat 34 :: ((jsonEscape s).data ++ ['"']) := by
    show (("\"" ++ jsonEscape s) ++ "\"").data = _
    rw [string_data_append, string_data_append]
    rfl
  rw [strStarts, h]
  rfl

/-- Claim C1, counterexample: the catalog does not have five entries
(it has six). -/
theorem claim_C1_counterexample : ¬ (list_tools.length = 5) := by decide

/-- Claim C1 (amended): `list_tools` returns a fixed, deterministically
ordered catalog of exactly six entries, in source order, each carrying a
name, description and input schema, and every declared parameter type is
either string or number. -/
theorem claim_C1_catalog :
    list_tools.map Tool.name = ["get_my_profile", "get_profile_by_url", "search_profiles",
      "search_jobs", "get_my_connections", "get_feed"] ∧
    list_tools.length = 6 ∧
    ∀ t ∈ list_tools, ∀ ty ∈ schemaParamTypes t.inputSchema,
      ty = Json.str "string" ∨ ty = Json.str "number" := by
  refine ⟨rfl, rfl, ?_⟩
  intro t ht
  fin_cases ht <;> intro ty hty <;> simp [schemaParamTypes, List.lookup, List.map] at hty <;> tauto

/-- Claim C2: for every capability name and argument mapping, if the
session credential is absent (unset or empty) then `call_tool` returns
the missing-credential failure text and issues no upstream request. -/
theorem claim_C2_missing_credential (cookie : Option String) (oracle : Oracle)
    (name : String) (args : List (String × Json)) (h : cookieTruthy cookie = false) :
    call_tool cookie oracle name args = ([⟨"text", missingCookieText⟩], []) := by
  simp [call_tool, h]

/-- Claim C2, witness: the unset credential at a concrete invocation. -/
theorem claim_C2_witness :
    cookieTruthy none = false ∧
    call_tool none (fun _ => Except.ok Json.null) "get_feed" [] =
      ([⟨"text", missingCookieText⟩], []) :=
  ⟨rfl, claim_C2_missing_credential none (fun _ => Except.ok Json.null) "get_feed" [] rfl⟩

/-- Claim C3, counterexample: invoking the unknown capability
`does_not_exist` yields the JSON-serialized success-path text
`"Unknown tool: does_not_exist"`, which does not begin with
`Error: `. -/
theorem claim_C3_counterexample :
    (call_tool (some "tok") (fun _ => Except.ok Json.null) "does_not_exist" []).1 =
      [⟨"text", "\"Unknown tool: does_not_exist\""⟩] ∧
    ∀ tc ∈ (call_tool (some "tok") (fun _ => Except.ok Json.null) "does_not_exist" []).1,
      strStarts "Error: " tc.text = false := by
  have h : call_tool (some "tok") (fun _ => Except.ok Json.null) "does_not_exist" [] =
      ([⟨"text", pyJsonDumps (Json.str "Unknown tool: does_not_exist")⟩], []) := rfl
  have hd : pyJsonDumps (Json.str "Unknown tool: does_not_exist") =
      "\"Unknown tool: does_not_exist\"" := by
    simp [pyJsonDumps, dumpsVal, dumpsStr, jsonEscape, jsonEscChar]
    rfl
  rw [h, hd]
  refine ⟨rfl, ?_⟩
  intro tc htc
  simp at htc
  rw [htc]
  decide

/-- Claim C3 (amended): with the credential present, every invocation
whose capability name is outside the catalog returns a single text
message holding the JSON serialization of `Unknown tool: <name>`; it
travels the success path and does not begin with `Error: ` (only the
missing-credential and caught-exception paths produce `Error: `
texts). -/
theorem claim_C3_unknown_tool (cookie : Option String) (oracle : Oracle)
    (name : String) (args : List (String × Json))
    (hc : cookieTruthy cookie = true)
    (hn : name ∉ list_tools.map Tool.name) :
    call_tool cookie oracle name args =
      ([⟨"text", pyJsonDumps (Json.str ("Unknown tool: " ++ name))⟩], []) ∧
    ∀ tc ∈ (call_tool cookie oracle name args).1,
      strStarts "Error: " tc.text = false := by
  simp [list_tools, not_or] at hn
  obtain ⟨h1, h2, h3, h4, h5, h6⟩ := hn
  have hcall : call_tool cookie oracle name args =
      ([⟨"text", pyJsonDumps (Json.str ("Unknown tool: " ++ name))⟩], []) := by
    simp [call_tool, hc, h1, h2, h3, h4, h5, h6]
  refine ⟨hcall, ?_⟩
  rw [hcall]
  intro tc htc
  simp at htc
  rw [htc]
  show strStarts "Error: " (dumpsVal 0 (Json.str ("Unknown tool: " ++ name))) = false
  rw [dumpsVal]
  exact strStarts_dumpsStr _

/-- Claim C3, witness: a concrete out-of-catalog invocation. -/
theorem claim_C3_witness :
    (cookieTruthy (some "tok") = true ∧ "missing_tool" ∉ list_tools.map Tool.name) ∧
    (call_tool (some "tok") (fun _ => Except.ok Json.null) "missing_tool" [⟨"a", Json.num 1⟩] =
      ([⟨"text", pyJsonDumps (Json.str ("Unknown tool: " ++ "missing_tool"))⟩], []) ∧
     ∀ tc ∈ (call_tool (some "tok") (fun _ => Except.ok Json.null) "missing_tool" [⟨"a", Json.num 1⟩]).1,
       strStarts "Error: " tc.text = false) :=
  ⟨⟨rfl, by decide⟩,
   claim_C3_unknown_tool (some "tok") (fun _ => Except.ok Json.null) "missing_tool"
     [⟨"a", Json.num 1⟩] rfl (by decide)⟩

/-- Claim C4: with the credential present, each capability with a
required parameter (`get_profile_by_url`/`profile_url`,
`search_profiles`/`query`, `search_jobs`/`keywords`) returns, when that
parameter is absent, the caught-`KeyError` failure text, with no
upstream request and no exception escaping `call_tool` (the embedding
returns a value on every path). -/
theorem claim_C4_required_params (cookie : Option String) (oracle : Oracle)
    (args : List (String × Json)) (hc : cookieTruthy cookie = true) :
    (args.lookup "profile_url" = none →
      call_tool cookie oracle "get_profile_by_url" args =
        ([⟨"text", "Error: \x27profile_url\x27\n\nMake sure your LinkedIn session cookie is valid and not expired."⟩], [])) ∧
    (args.lookup "query" = none →
      call_tool cookie oracle "search_profiles" args =
        ([⟨"text", "Error: \x27query\x27\n\nMake sure your LinkedIn session cookie is valid and not expired."⟩], [])) ∧
    (args.lookup "keywords" = none →
      call_tool cookie oracle "search_jobs" args =
        ([⟨"text", "Error: \x27keywords\x27\n\nMake sure your LinkedIn session cookie is valid and not expired."⟩], [])) := by
  refine ⟨?_, ?_, ?_⟩ <;> intro h <;>
    simp [call_tool, hc, dictIndex, h, cookieHintText]

/-- Claim C4, witness: omitting `profile_url` at a concrete
invocation. -/
theorem claim_C4_witness :
    cookieTruthy (some "c") = true ∧
    call_tool (some "c") (fun _ => Except.ok Json.null) "get_profile_by_url" [] =
      ([⟨"text", "Error: \x27profile_url\x27\n\nMake sure your LinkedIn session cookie is valid and not expired."⟩], []) :=
  ⟨rfl, (claim_C4_required_params (some "c") (fun _ => Except.ok Json.null) [] rfl).1 rfl⟩

/-- The profile normalizer on a payload that carries only `firstName`
(of arbitrary JSON value) returns `location`, `industry` and `summary`
as empty strings and `experience`, `education` and `skills` as empty
lists, raising nothing for the missing keys at any depth. -/
theorem profileView_firstName_only (v : Json) (u : String) :
    normalizeProfileView (Json.obj [("profile", Json.obj [("firstName", v)])]) u =
      Except.ok (Json.obj [
        ("name", Json.str (pyStr v ++ " ")),
        ("headline", Json.str ""),
        ("summary", Json.str ""),
        ("location", Json.str ""),
        ("industry", Json.str ""),
        ("profile_url", Json.str ("https://www.linkedin.com/in/" ++ u)),
        ("experience", Json.arr []),
        ("education", Json.arr []),
        ("skills", Json.arr [])]) := by
  have h : normalizeProfileView (Json.obj [("profile", Json.obj [("firstName", v)])]) u =
      Except.ok (Json.obj [
        ("name", Json.str (pyStr v ++ " " ++ "")),
        ("headline", Json.str ""),
        ("summary", Json.str ""),
        ("location", Json.str ""),
        ("industry", Json.str ""),
        ("profile_url", Json.str ("https://www.linkedin.com/in/" ++ u)),
        ("experience", Json.arr []),
        ("education", Json.arr []),
        ("skills", Json.arr [])]) := rfl
  simpa using h

/-- Claim C6: the feed normalizer processes at most `limit` upstream
elements — for a nonnegative integer limit the returned count never
exceeds it — and every processed element lacking the nested
update-rendering variant key yields the all-empty post (empty `text`)
without failing.  The per-element success hypothesis restricts to
payloads whose processed elements raise no type error, the expected
shape of the vendor feed. -/
theorem claim_C6_feed_truncation (es : List Json) (rest : List (String × Json)) (n : Int)
    (hn : 0 ≤ n)
    (hok : (pySliceTo es n).all (fun e => (feedPost e).isOk) = true) :
    normalizeFeed (Json.obj (("elements", Json.arr es) :: rest)) (Json.num n) =
      Except.ok (Json.obj [
        ("count", Json.num ((pySliceTo es n).length : Int)),
        ("posts", Json.arr ((pySliceTo es n).map (fun e => okVal (feedPost e))))]) ∧
    ((pySliceTo es n).length : Int) ≤ n ∧
    (∀ e ∈ pySliceTo es n, lacksUpdateVariant e = true → feedPost e = Except.ok emptyFeedPost) := by
  refine ⟨?_, ?_, ?_⟩
  · have hmap := exceptMapM_eq_map feedPost (pySliceTo es n) hok
    simp [normalizeFeed, pyGet, List.lookup, pySliceBound, pySliceJson, pyIter, hmap,
      bind, Except.bind, pure, Except.pure]
  · rw [pySliceTo, if_pos hn]
    have h1 : (es.take n.toNat).length ≤ n.toNat := by
      rw [List.length_take]; exact Nat.min_le_left _ _
    have h2 := Int.toNat_of_nonneg hn
    omega
  · intro e he hl
    cases e with
    | obj fs =>
      cases hv : fs.lookup "value" with
      | none =>
        simp [feedPost, pyInKey, hv, bind, Except.bind, pure, Except.pure, emptyFeedPost]
      | some v =>
        cases v with
        | obj vs =>
          simp only [lacksUpdateVariant, hv] at hl
          simp [feedPost, pyInKey, pyIndexKey, hv, bind, Except.bind, pure, Except.pure,
            emptyFeedPost, Option.isNone_iff_eq_none.mp hl]
        | null => simp [lacksUpdateVariant, hv] at hl
        | bool b => simp [lacksUpdateVariant, hv] at hl
        | num m => simp [lacksUpdateVariant, hv] at hl
        | str s => simp [lacksUpdateVariant, hv] at hl
        | arr xs => simp [lacksUpdateVariant, hv] at hl
    | null => simp [lacksUpdateVariant] at hl
    | bool b => simp [lacksUpdateVariant] at hl
    | num m => simp [lacksUpdateVariant] at hl
    | str s => simp [lacksUpdateVariant] at hl
    | arr xs => simp [lacksUpdateVariant] at hl

/-- Claim C6, witness: a three-element feed with limit 2, whose first
processed element lacks the variant key. -/
theorem claim_C6_witness :
    (0 : Int) ≤ 2 ∧
    ((pySliceTo [Json.obj [],
        Json.obj [("value", Json.obj [("com.linkedin.voyager.feed.render.UpdateV2",
          Json.obj [("commentary", Json.obj [("text", Json.obj [("text", Json.str "hello")])])])])],
        Json.obj [("x", Json.num 1)]] 2).all (fun e => (feedPost e).isOk) = true) ∧
    (normalizeFeed (Json.obj (("elements", Json.arr [Json.obj [],
        Json.obj [("value", Json.obj [("com.linkedin.voyager.feed.render.UpdateV2",
          Json.obj [("commentary", Json.obj [("text", Json.obj [("text", Json.str "hello")])])])])],
        Json.obj [("x", Json.num 1)]]) :: [])) (Json.num 2) =
      Except.ok (Json.obj [
        ("count", Json.num ((pySliceTo [Json.obj [],
            Json.obj [("value", Json.obj [("com.linkedin.voyager.feed.render.UpdateV2",
              Json.obj [("commentary", Json.obj [("text", Json.obj [("text", Json.str "hello")])])])])],
            Json.obj [("x", Json.num 1)]] 2).length : Int)),
        ("posts", Json.arr ((pySliceTo [Json.obj [],
            Json.obj [("value", Json.obj [("com.linkedin.voyager.feed.render.UpdateV2",
              Json.obj [("commentary", Json.obj [("text", Json.obj [("text", Json.str "hello")])])])])],
            Json.obj [("x", Json.num 1)]] 2).map (fun e => okVal (feedPost e))))]) ∧
      ((pySliceTo [Json.obj [],
          Json.obj [("value", Json.obj [("com.linkedin.voyager.feed.render.UpdateV2",
            Json.obj [("commentary", Json.obj [("text", Json.obj [("text", Json.str "hello")])])])])],
          Json.obj [("x", Json.num 1)]] 2).length : Int) ≤ 2 ∧
      (∀ e ∈ pySliceTo [Json.obj [],
          Json.obj [("value", Json.obj [("com.linkedin.voyager.feed.render.UpdateV2",
            Json.obj [("commentary", Json.obj [("text", Json.obj [("text", Json.str "hello")])])])])],
          Json.obj [("x", Json.num 1)]] 2,
        lacksUpdateVariant e = true → feedPost e = Except.ok emptyFeedPost)) :=
  ⟨by decide, by decide,
   claim_C6_feed_truncation [Json.obj [],
     Json.obj [("value", Json.obj [("com.linkedin.voyager.feed.render.UpdateV2",
       Json.obj [("commentary", Json.obj [("text", Json.obj [("text", Json.str "hello")])])])])],
     Json.obj [("x", Json.num 1)]] [] 2 (by decide) (by decide)⟩

/-- Claim C7: on a job-search response with N result elements (each a
record, possibly missing any keys), the normalizer returns `count = N`
and the N job records in upstream element order. -/
theorem claim_C7_job_search_count (es : List Json) (rest : List (String × Json))
    (hok : es.all (fun e => (searchJobRecord e).isOk) = true) :
    normalizeSearchJobs (Json.obj (("elements", Json.arr es) :: rest)) =
      Except.ok (Json.obj [("count", Json.num (es.length : Int)),
        ("jobs", Json.arr (es.map (fun e => okVal (searchJobRecord e))))]) := by
  simp [normalizeSearchJobs, pyGet, pyIter, List.lookup,
    exceptMapM_eq_map searchJobRecord es hok, bind, Except.bind, pure, Except.pure]

/-- Claim C7, witness: three job elements, one complete and two with
missing nested keys, give count 3 in order. -/
theorem claim_C7_witness :
    ([Json.obj [("hitInfo", Json.obj [("*jobPosting", Json.obj [("title", Json.str "Engineer"),
        ("companyName", Json.str "Acme"), ("jobPostingId", Json.num 123)])])],
      Json.obj [], Json.obj [("hitInfo", Json.obj [])]].all
        (fun e => (searchJobRecord e).isOk) = true) ∧
    normalizeSearchJobs (Json.obj [("elements", Json.arr
        [Json.obj [("hitInfo", Json.obj [("*jobPosting", Json.obj [("title", Json.str "Engineer"),
          ("companyName", Json.str "Acme"), ("jobPostingId", Json.num 123)])])],
         Json.obj [], Json.obj [("hitInfo", Json.obj [])]])]) =
      Except.ok (Json.obj [("count", Json.num 3),
        ("jobs", Json.arr ([Json.obj [("hitInfo", Json.obj [("*jobPosting", Json.obj [("title", Json.str "Engineer"),
          ("companyName", Json.str "Acme"), ("jobPostingId", Json.num 123)])])],
         Json.obj [], Json.obj [("hitInfo", Json.obj [])]].map (fun e => okVal (searchJobRecord e))))]) :=
  ⟨by decide, claim_C7_job_search_count _ [] (by decide)⟩

/-- Claim C8: at the tool's own documented example input
`linkedin.com/in/johndoe`, the inverted containment check keeps the
whole input as the username, so the request path is mangled and the
`profile_url` field is the non-canonical
`https://www.linkedin.com/in/linkedin.com/in/johndoe` even though the
upstream profile carries `publicIdentifier = johndoe` (which the code
never consults). -/
theorem claim_C8_profile_url_bug :
    extractUsername "linkedin.com/in/johndoe" = "linkedin.com/in/johndoe" ∧
    get_profile_by_url
      (fun _ => Except.ok (Json.obj [("profile", Json.obj [("publicIdentifier", Json.str "johndoe")])]))
      (Json.str "linkedin.com/in/johndoe") =
    (Except.ok (Json.obj [
      ("name", Json.str " "),
      ("headline", Json.str ""),
      ("summary", Json.str ""),
      ("location", Json.str ""),
      ("industry", Json.str ""),
      ("profile_url", Json.str "https://www.linkedin.com/in/linkedin.com/in/johndoe"),
      ("experience", Json.arr []),
      ("education", Json.arr []),
      ("skills", Json.arr [])]),
     [⟨"https://www.linkedin.com/voyager/api/identity/profiles/linkedin.com/in/johndoe/profileView", []⟩]) := by
  refine ⟨rfl, ?_⟩
  have h : get_profile_by_url
      (fun _ => Except.ok (Json.obj [("profile", Json.obj [("publicIdentifier", Json.str "johndoe")])]))
      (Json.str "linkedin.com/in/johndoe") =
    (Except.ok (Json.obj [
      ("name", Json.str ("" ++ " " ++ "")),
      ("headline", Json.str ""),
      ("summary", Json.str ""),
      ("location", Json.str ""),
      ("industry", Json.str ""),
      ("profile_url", Json.str "https://www.linkedin.com/in/linkedin.com/in/johndoe"),
      ("experience", Json.arr []),
      ("education", Json.arr []),
      ("skills", Json.arr [])]),
     [⟨"https://www.linkedin.com/voyager/api/identity/profiles/linkedin.com/in/johndoe/profileView", []⟩]) := rfl
  simpa using h

/-- Claim C9: for a profile response whose skill view has any number of
elements (records), the normalized skills list is exactly the `name`
fields of the first 10 skill elements in upstream order, hence at most
10 entries (fewer when fewer exist). -/
theorem claim_C9_skills_cap (es : List Json) (u : String)
    (hok : (es.take 10).all (fun e => (pyGet e "name" (Json.str "")).isOk) = true) :
    normalizeProfileView (Json.obj [("skillView", Json.obj [("elements", Json.arr es)])]) u =
      Except.ok (Json.obj [
        ("name", Json.str " "),
        ("headline", Json.str ""),
        ("summary", Json.str ""),
        ("location", Json.str ""),
        ("industry", Json.str ""),
        ("profile_url", Json.str ("https://www.linkedin.com/in/" ++ u)),
        ("experience", Json.arr []),
        ("education", Json.arr []),
        ("skills", Json.arr ((es.take 10).map (fun e => okVal (pyGet e "name" (Json.str "")))))]) ∧
    ((es.take 10).map (fun e => okVal (pyGet e "name" (Json.str "")))).length ≤ 10 := by
  constructor
  · have hmap := exceptMapM_eq_map (fun skill => pyGet skill "name" (Json.str "")) (es.take 10) hok
    have h0 : normalizeProfileView (Json.obj [("skillView", Json.obj [("elements", Json.arr es)])]) u =
        (exceptMapM (fun skill => pyGet skill "name" (Json.str "")) (es.take 10) >>= fun skills =>
          pure (Json.obj [
            ("name", Json.str (pyStr (Json.str "") ++ " " ++ pyStr (Json.str ""))),
            ("headline", Json.str ""),
            ("summary", Json.str ""),
            ("location", Json.str ""),
            ("industry", Json.str ""),
            ("profile_url", Json.str ("https://www.linkedin.com/in/" ++ u)),
            ("experience", Json.arr []),
            ("education", Json.arr []),
            ("skills", Json.arr skills)])) := rfl
    rw [h0, hmap]
    rfl
  · rw [List.length_map, List.length_take]
    exact Nat.min_le_left _ _

/-- Claim C9, witness: eleven skill elements yield exactly the first ten
names. -/
theorem claim_C9_witness :
    ((List.replicate 11 (Json.obj [("name", Json.str "Python")])).take 10).all
      (fun e => (pyGet e "name" (Json.str "")).isOk) = true ∧
    (normalizeProfileView (Json.obj [("skillView", Json.obj [("elements",
        Json.arr (List.replicate 11 (Json.obj [("name", Json.str "Python")])))])]) "jane" =
      Except.ok (Json.obj [
        ("name", Json.str " "),
        ("headline", Json.str ""),
        ("summary", Json.str ""),
        ("location", Json.str ""),
        ("industry", Json.str ""),
        ("profile_url", Json.str ("https://www.linkedin.com/in/" ++ "jane")),
        ("experience", Json.arr []),
        ("education", Json.arr []),
        ("skills", Json.arr (((List.replicate 11 (Json.obj [("name", Json.str "Python")])).take 10).map
          (fun e => okVal (pyGet e "name" (Json.str "")))))]) ∧
      (((List.replicate 11 (Json.obj [("name", Json.str "Python")])).take 10).map
        (fun e => okVal (pyGet e "name" (Json.str "")))).length ≤ 10) :=
  ⟨by decide,
   claim_C9_skills_cap (List.replicate 11 (Json.obj [("name", Json.str "Python")])) "jane" (by decide)⟩

/-- Claim C10: the people-search, job-search and connections
normalizers return `count = N` and all N records whatever the requested
limit — the limit appears only as the `count` query parameter of the one
upstream request — while the feed normalizer alone truncates its output
to the limit. -/
theorem claim_C10_limit_not_enforced (es : List Json) (rest : List (String × Json))
    (q kw loc limit : Json)
    (hp : es.all (fun e => (searchProfileRecord e).isOk) = true)
    (hj : es.all (fun e => (searchJobRecord e).isOk) = true)
    (hc : es.all (fun e => (connectionRecord e).isOk) = true)
    (hloc : pyTruthy loc = false) :
    search_profiles (fun _ => Except.ok (Json.obj (("elements", Json.arr es) :: rest))) q limit =
      (Except.ok (Json.obj [("count", Json.num (es.length : Int)),
        ("results", Json.arr (es.map (fun e => okVal (searchProfileRecord e))))]),
       [⟨"https://www.linkedin.com/voyager/api/search/blended",
         [("keywords", q), ("filters", Json.str "List(resultType->PEOPLE)"),
          ("queryContext", Json.str "List(spellCorrectionEnabled->true)"), ("count", limit)]⟩]) ∧
    search_jobs (fun _ => Except.ok (Json.obj (("elements", Json.arr es) :: rest))) kw loc limit =
      (Except.ok (Json.obj [("count", Json.num (es.length : Int)),
        ("jobs", Json.arr (es.map (fun e => okVal (searchJobRecord e))))]),
       [⟨"https://www.linkedin.com/voyager/api/search/blended",
         [("keywords", kw), ("count", limit), ("filters", Json.str "List(resultType->JOBS)"),
          ("queryContext", Json.str "List(spellCorrectionEnabled->true)")]⟩]) ∧
    get_my_connections (fun _ => Except.ok (Json.obj (("elements", Json.arr es) :: rest))) limit =
      (Except.ok (Json.obj [("count", Json.num (es.length : Int)),
        ("connections", Json.arr (es.map (fun e => okVal (connectionRecord e))))]),
       [⟨"https://www.linkedin.com/voyager/api/relationships/connections", [("count", limit)]⟩]) ∧
    (∀ n : Int, 0 ≤ n → ∀ posts : List Json,
      exceptMapM feedPost (pySliceTo es n) = Except.ok posts →
        get_feed (fun _ => Except.ok (Json.obj (("elements", Json.arr es) :: rest))) (Json.num n) =
          (Except.ok (Json.obj [("count", Json.num (posts.length : Int)), ("posts", Json.arr posts)]),
           [⟨"https://www.linkedin.com/voyager/api/feed/updates", [("count", Json.num n)]⟩]) ∧
        (posts.length : Int) ≤ n) := by
  refine ⟨?_, ?_, ?_, ?_⟩
  · simp [search_profiles, normalizeSearchProfiles, pyGet, pyIter, List.lookup,
      exceptMapM_eq_map searchProfileRecord es hp, bind, Except.bind, pure, Except.pure]
  · simp [search_jobs, hloc, normalizeSearchJobs, pyGet, pyIter, List.lookup,
      exceptMapM_eq_map searchJobRecord es hj, bind, Except.bind, pure, Except.pure]
  · simp [get_my_connections, normalizeConnections, pyGet, pyIter, List.lookup,
      exceptMapM_eq_map connectionRecord es hc, bind, Except.bind, pure, Except.pure]
  · intro n hn posts hposts
    constructor
    · simp [get_feed, normalizeFeed, pyGet, List.lookup, pySliceBound, pySliceJson, pyIter,
        hposts, bind, Except.bind, pure, Except.pure]
    · have hlen := exceptMapM_ok_length feedPost (pySliceTo es n) posts hposts
      rw [pySliceTo, if_pos hn] at hlen
      have h1 : (es.take n.toNat).length ≤ n.toNat := by
        rw [List.length_take]; exact Nat.min_le_left _ _
      have h2 := Int.toNat_of_nonneg hn
      omega

/-- Claim C10, witness: three result elements with requested limit 1
still give count 3 for people search, job search and connections. -/
theorem claim_C10_witness :
    ([Json.obj [], Json.obj [], Json.obj []].all (fun e => (searchProfileRecord e).isOk) = true) ∧
    ([Json.obj [], Json.obj [], Json.obj []].all (fun e => (searchJobRecord e).isOk) = true) ∧
    ([Json.obj [], Json.obj [], Json.obj []].all (fun e => (connectionRecord e).isOk) = true) ∧
    pyTruthy (Json.str "") = false ∧
    (search_profiles (fun _ => Except.ok (Json.obj (("elements",
        Json.arr [Json.obj [], Json.obj [], Json.obj []]) :: []))) (Json.str "ada") (Json.num 1) =
      (Except.ok (Json.obj [("count", Json.num ([Json.obj [], Json.obj [], Json.obj []].length : Int)),
        ("results", Json.arr ([Json.obj [], Json.obj [], Json.obj []].map
          (fun e => okVal (searchProfileRecord e))))]),
       [⟨"https://www.linkedin.com/voyager/api/search/blended",
         [("keywords", Json.str "ada"), ("filters", Json.str "List(resultType->PEOPLE)"),
          ("queryContext", Json.str "List(spellCorrectionEnabled->true)"), ("count", Json.num 1)]⟩]) ∧
     search_jobs (fun _ => Except.ok (Json.obj (("elements",
        Json.arr [Json.obj [], Json.obj [], Json.obj []]) :: []))) (Json.str "ada") (Json.str "") (Json.num 1) =
      (Except.ok (Json.obj [("count", Json.num ([Json.obj [], Json.obj [], Json.obj []].length : Int)),
        ("jobs", Json.arr ([Json.obj [], Json.obj [], Json.obj []].map
          (fun e => okVal (searchJobRecord e))))]),
       [⟨"https://www.linkedin.com/voyager/api/search/blended",
         [("keywords", Json.str "ada"), ("count", Json.num 1), ("filters", Json.str "List(resultType->JOBS)"),
          ("queryContext", Json.str "List(spellCorrectionEnabled->true)")]⟩]) ∧
     get_my_connections (fun _ => Except.ok (Json.obj (("elements",
        Json.arr [Json.obj [], Json.obj [], Json.obj []]) :: []))) (Json.num 1) =
      (Except.ok (Json.obj [("count", Json.num ([Json.obj [], Json.obj [], Json.obj []].length : Int)),
        ("connections", Json.arr ([Json.obj [], Json.obj [], Json.obj []].map
          (fun e => okVal (connectionRecord e))))]),
       [⟨"https://www.linkedin.com/voyager/api/relationships/connections", [("count", Json.num 1)]⟩]) ∧
     (∀ n : Int, 0 ≤ n → ∀ posts : List Json,
       exceptMapM feedPost (pySliceTo [Json.obj [], Json.obj [], Json.obj []] n) = Except.ok posts →
         get_feed (fun _ => Except.ok (Json.obj (("elements",
            Json.arr [Json.obj [], Json.obj [], Json.obj []]) :: []))) (Json.num n) =
           (Except.ok (Json.obj [("count", Json.num (posts.length : Int)), ("posts", Json.arr posts)]),
            [⟨"https://www.linkedin.com/voyager/api/feed/updates", [("count", Json.num n)]⟩]) ∧
         (posts.length : Int) ≤ n)) :=
  ⟨by decide, by decide, by decide, rfl,
   claim_C10_limit_not_enforced [Json.obj [], Json.obj [], Json.obj []] []
     (Json.str "ada") (Json.str "ada") (Json.str "") (Json.num 1)
     (by decide) (by decide) (by decide) rfl⟩

theorem okOrTC_pyGet (j : Json) (k : String) (d : Json) :
    okOrTypeConfusion (pyGet j k d) = true := by
  cases j <;> rfl

theorem okOrTC_pyInKey (k : String) (j : Json) :
    okOrTypeConfusion (pyInKey k j) = true := by
  cases j <;> rfl

theorem okOrTC_pyIter (j : Json) : okOrTypeConfusion (pyIter j) = true := by
  cases j <;> rfl

theorem okOrTC_pySliceBound (j : Json) : okOrTypeConfusion (pySliceBound j) = true := by
  cases j <;> rfl

theorem okOrTC_pySliceJson (j : Json) (b : Option Int) :
    okOrTypeConfusion (pySliceJson j b) = true := by
  cases j <;> cases b <;> rfl

/-- Sequencing preserves the no-missing-key-failure discipline. -/
theorem okOrTC_bind {α β : Type} {x : Except String α} {f : α → Except String β}
    (hx : okOrTypeConfusion x = true) (hf : ∀ v, okOrTypeConfusion (f v) = true) :
    okOrTypeConfusion (x >>= f) = true := by
  cases x with
  | error e => exact hx
  | ok v => exact hf v

/-- A loop over elements preserves the no-missing-key-failure
discipline. -/
theorem okOrTC_exceptMapM (f : Json → Except String Json)
    (hf : ∀ e, okOrTypeConfusion (f e) = true) :
    ∀ l : List Json, okOrTypeConfusion (exceptMapM f l) = true
  | [] => rfl
  | x :: xs => by
    rw [exceptMapM]
    cases hfx : f x with
    | error e =>
      have h := hf x
      rw [hfx] at h
      exact h
    | ok y =>
      cases hxs : exceptMapM f xs with
      | error e =>
        have h := okOrTC_exceptMapM f hf xs
        rw [hxs] at h
        exact h
      | ok ys => rfl

theorem okOrTC_searchProfileRecord (e : Json) :
    okOrTypeConfusion (searchProfileRecord e) = true := by
  unfold searchProfileRecord
  refine okOrTC_bind (okOrTC_pyGet _ _ _) fun hitInfo => ?_
  refine okOrTC_bind (okOrTC_pyGet _ _ _) fun profile => ?_
  refine okOrTC_bind (okOrTC_pyGet _ _ _) fun firstName => ?_
  refine okOrTC_bind (okOrTC_pyGet _ _ _) fun lastName => ?_
  refine okOrTC_bind (okOrTC_pyGet _ _ _) fun headline => ?_
  refine okOrTC_bind (okOrTC_pyGet _ _ _) fun geoLocationName => ?_
  exact okOrTC_bind (okOrTC_pyGet _ _ _) fun publicIdentifier => rfl

theorem okOrTC_searchJobRecord (e : Json) :
    okOrTypeConfusion (searchJobRecord e) = true := by
  unfold searchJobRecord
  refine okOrTC_bind (okOrTC_pyGet _ _ _) fun hitInfo => ?_
  refine okOrTC_bind (okOrTC_pyGet _ _ _) fun job => ?_
  refine okOrTC_bind (okOrTC_pyGet _ _ _) fun title => ?_
  refine okOrTC_bind (okOrTC_pyGet _ _ _) fun company => ?_
  refine okOrTC_bind (okOrTC_pyGet _ _ _) fun location => ?_
  refine okOrTC_bind (okOrTC_pyGet _ _ _) fun jobPostingId => ?_
  exact okOrTC_bind (okOrTC_pyGet _ _ _) fun posted => rfl

theorem okOrTC_connectionRecord (e : Json) :
    okOrTypeConfusion (connectionRecord e) = true := by
  unfold connectionRecord
  refine okOrTC_bind (okOrTC_pyGet _ _ _) fun conn => ?_
  refine okOrTC_bind (okOrTC_pyGet _ _ _) fun firstName => ?_
  refine okOrTC_bind (okOrTC_pyGet _ _ _) fun lastName => ?_
  refine okOrTC_bind (okOrTC_pyGet _ _ _) fun headline => ?_
  exact okOrTC_bind (okOrTC_pyGet _ _ _) fun publicIdentifier => rfl

theorem okOrTC_schoolRecord (e : Json) :
    okOrTypeConfusion (schoolRecord e) = true := by
  unfold schoolRecord
  refine okOrTC_bind (okOrTC_pyGet _ _ _) fun schoolName => ?_
  refine okOrTC_bind (okOrTC_pyGet _ _ _) fun degree => ?_
  exact okOrTC_bind (okOrTC_pyGet _ _ _) fun field => rfl

/-- Every feed element's processing either succeeds (empty post when
the variant key is missing) or fails by type confusion, never with a
missing-key failure: both subscripts are membership-guarded. -/
theorem okOrTC_feedPost (e : Json) : okOrTypeConfusion (feedPost e) = true := by
  cases e with
  | null => rfl
  | bool b => rfl
  | num n => rfl
  | str s =>
    cases hb : strContains "value" s <;>
      simp [feedPost, pyInKey, pyIndexKey, hb, okOrTypeConfusion, bind, Except.bind,
        pure, Except.pure] <;> rfl
  | arr xs =>
    cases hb : xs.contains (Json.str "value") <;>
      simp [feedPost, pyInKey, pyIndexKey, hb, okOrTypeConfusion, bind, Except.bind,
        pure, Except.pure] <;> rfl
  | obj fs =>
    cases hv : fs.lookup "value" with
    | none =>
      simp [feedPost, pyInKey, hv, okOrTypeConfusion, bind, Except.bind, pure, Except.pure]
    | some v =>
      cases v with
      | obj vs =>
        cases hu : vs.lookup "com.linkedin.voyager.feed.render.UpdateV2" with
        | none =>
          simp [feedPost, pyInKey, pyIndexKey, hv, hu, okOrTypeConfusion, bind, Except.bind,
            pure, Except.pure]
        | some u =>
          have hrest : okOrTypeConfusion
              (pyGet u "commentary" (Json.obj []) >>= fun commentary =>
                pyGet commentary "text" (Json.obj []) >>= fun textObj =>
                pyGet textObj "text" (Json.str "") >>= fun text =>
                pure (Json.obj [("text", text), ("author", Json.str ""),
                  ("timestamp", Json.str "")])) = true := by
            refine okOrTC_bind (okOrTC_pyGet _ _ _) fun commentary => ?_
            refine okOrTC_bind (okOrTC_pyGet _ _ _) fun textObj => ?_
            exact okOrTC_bind (okOrTC_pyGet _ _ _) fun text => rfl
          simpa [feedPost, pyInKey, pyIndexKey, hv, hu, bind, Except.bind, pure,
            Except.pure] using hrest
      | null => simp [feedPost, pyInKey, pyIndexKey, hv, okOrTypeConfusion, bind, Except.bind,
          pure, Except.pure] <;> rfl
      | bool b => simp [feedPost, pyInKey, pyIndexKey, hv, okOrTypeConfusion, bind, Except.bind,
          pure, Except.pure] <;> rfl
      | num n => simp [feedPost, pyInKey, pyIndexKey, hv, okOrTypeConfusion, bind, Except.bind,
          pure, Except.pure] <;> rfl
      | str s =>
        cases hb : strContains "com.linkedin.voyager.feed.render.UpdateV2" s <;>
          simp [feedPost, pyInKey, pyIndexKey, hv, hb, okOrTypeConfusion, bind, Except.bind,
            pure, Except.pure] <;> rfl
      | arr xs =>
        cases hb : xs.contains (Json.str "com.linkedin.voyager.feed.render.UpdateV2") <;>
          simp [feedPost, pyInKey, pyIndexKey, hv, hb, okOrTypeConfusion, bind, Except.bind,
            pure, Except.pure] <;> rfl

theorem pyInKey_obj (k : String) (fs : List (String × Json)) :
    pyInKey k (Json.obj fs) = Except.ok (fs.lookup k).isSome := rfl

theorem pyIndexKey_obj_some {fs : List (String × Json)} {k : String} {v : Json}
    (h : List.lookup k fs = some v) :
    pyIndexKey (Json.obj fs) k = Except.ok v := by
  simp [pyIndexKey, h]

/-- Every experience element's processing either succeeds or fails by
type confusion, never with a missing-key failure: the `timePeriod`,
`startDate` and `endDate` subscripts are membership-guarded and all
other accesses are defaulting gets. -/
theorem okOrTC_positionRecord (pos : Json) : okOrTypeConfusion (positionRecord pos) = true := by
  cases pos with
  | null => rfl
  | bool b => rfl
  | num n => rfl
  | str s => rfl
  | arr xs => rfl
  | obj fs =>
    unfold positionRecord
    refine okOrTC_bind (okOrTC_pyGet _ _ _) fun title => ?_
    refine okOrTC_bind (okOrTC_pyGet _ _ _) fun company => ?_
    refine okOrTC_bind (okOrTC_pyGet _ _ _) fun description => ?_
    refine okOrTC_bind (okOrTC_pyGet _ _ _) fun location => ?_
    cases htp : fs.lookup "timePeriod" with
    | none =>
      simp [pyInKey, htp, except_bind_ok, except_pure, okOrTypeConfusion, bind, Except.bind,
        pure, Except.pure]
    | some tp =>
      simp only [pyInKey_obj, pyIndexKey_obj_some htp, htp, Option.isSome_some,
        except_bind_ok, except_pure, if_true, ite_true]
      cases tp with
      | null => rfl
      | bool b => rfl
      | num n => rfl
      | str s =>
        cases hs : strContains "startDate" s <;> cases he : strContains "endDate" s <;>
          simp [pyInKey, pyIndexKey, hs, he, except_bind_ok, except_pure, okOrTypeConfusion,
            bind, Except.bind, pure, Except.pure] <;> rfl
      | arr xs =>
        cases hs : xs.contains (Json.str "startDate") <;>
          cases he : xs.contains (Json.str "endDate") <;>
          simp [pyInKey, pyIndexKey, hs, he, except_bind_ok, except_pure, okOrTypeConfusion,
            bind, Except.bind, pure, Except.pure] <;> rfl
      | obj ts =>
        cases hs : ts.lookup "startDate" with
        | none =>
          cases he : ts.lookup "endDate" with
          | none =>
            simp [pyInKey_obj, hs, he, except_bind_ok, except_pure, okOrTypeConfusion,
              bind, Except.bind, pure, Except.pure]
          | some ed =>
            simp only [pyInKey_obj, pyIndexKey_obj_some he, hs, he, Option.isSome_some,
              Option.isSome_none, except_bind_ok, except_pure, Bool.false_eq_true, if_true,
              if_false, ite_true, ite_false]
            refine okOrTC_bind (okOrTC_pyGet _ _ _) fun m => ?_
            exact okOrTC_bind (okOrTC_pyGet _ _ _) fun y => rfl
        | some st =>
          cases he : ts.lookup "endDate" with
          | none =>
            simp only [pyInKey_obj, pyIndexKey_obj_some hs, hs, he, Option.isSome_some,
              Option.isSome_none, except_bind_ok, except_pure, Bool.false_eq_true, if_true,
              if_false, ite_true, ite_false]
            refine okOrTC_bind (okOrTC_pyGet _ _ _) fun m => ?_
            exact okOrTC_bind (okOrTC_pyGet _ _ _) fun y => rfl
          | some ed =>
            simp only [pyInKey_obj, pyIndexKey_obj_some hs, pyIndexKey_obj_some he, hs, he,
              Option.isSome_some, except_bind_ok, except_pure, if_true, ite_true]
            refine okOrTC_bind (okOrTC_pyGet _ _ _) fun m => ?_
            refine okOrTC_bind (okOrTC_pyGet _ _ _) fun y => ?_
            refine okOrTC_bind (okOrTC_pyGet _ _ _) fun m2 => ?_
            exact okOrTC_bind (okOrTC_pyGet _ _ _) fun y2 => rfl

theorem okOrTC_normalizeProfileView (data : Json) (u : String) :
    okOrTypeConfusion (normalizeProfileView data u) = true := by
  unfold normalizeProfileView
  refine okOrTC_bind (okOrTC_pyGet _ _ _) fun profile_data => ?_
  refine okOrTC_bind (okOrTC_pyGet _ _ _) fun firstName => ?_
  refine okOrTC_bind (okOrTC_pyGet _ _ _) fun lastName => ?_
  refine okOrTC_bind (okOrTC_pyGet _ _ _) fun headline => ?_
  refine okOrTC_bind (okOrTC_pyGet _ _ _) fun summary => ?_
  refine okOrTC_bind (okOrTC_pyGet _ _ _) fun location => ?_
  refine okOrTC_bind (okOrTC_pyGet _ _ _) fun industry => ?_
  refine okOrTC_bind (okOrTC_pyGet _ _ _) fun positionView => ?_
  refine okOrTC_bind (okOrTC_pyGet _ _ _) fun posElems => ?_
  refine okOrTC_bind (okOrTC_pyIter _) fun positions => ?_
  refine okOrTC_bind (okOrTC_exceptMapM _ okOrTC_positionRecord _) fun experience => ?_
  refine okOrTC_bind (okOrTC_pyGet _ _ _) fun educationView => ?_
  refine okOrTC_bind (okOrTC_pyGet _ _ _) fun eduElems => ?_
  refine okOrTC_bind (okOrTC_pyIter _) fun schools => ?_
  refine okOrTC_bind (okOrTC_exceptMapM _ okOrTC_schoolRecord _) fun education => ?_
  refine okOrTC_bind (okOrTC_pyGet _ _ _) fun skillView => ?_
  refine okOrTC_bind (okOrTC_pyGet _ _ _) fun skillElems => ?_
  refine okOrTC_bind (okOrTC_pySliceJson _ _) fun skillsSliced => ?_
  refine okOrTC_bind (okOrTC_pyIter _) fun skillsIter => ?_
  exact okOrTC_bind
    (okOrTC_exceptMapM _ (fun sk => okOrTC_pyGet sk "name" (Json.str "")) _) fun skills => rfl

theorem okOrTC_normalizeSearchProfiles (data : Json) :
    okOrTypeConfusion (normalizeSearchProfiles data) = true := by
  unfold normalizeSearchProfiles
  refine okOrTC_bind (okOrTC_pyGet _ _ _) fun elemsJ => ?_
  refine okOrTC_bind (okOrTC_pyIter _) fun elements => ?_
  exact okOrTC_bind (okOrTC_exceptMapM _ okOrTC_searchProfileRecord _) fun results => rfl

theorem okOrTC_normalizeSearchJobs (data : Json) :
    okOrTypeConfusion (normalizeSearchJobs data) = true := by
  unfold normalizeSearchJobs
  refine okOrTC_bind (okOrTC_pyGet _ _ _) fun elemsJ => ?_
  refine okOrTC_bind (okOrTC_pyIter _) fun elements => ?_
  exact okOrTC_bind (okOrTC_exceptMapM _ okOrTC_searchJobRecord _) fun jobs => rfl

theorem okOrTC_normalizeConnections (data : Json) :
    okOrTypeConfusion (normalizeConnections data) = true := by
  unfold normalizeConnections
  refine okOrTC_bind (okOrTC_pyGet _ _ _) fun elemsJ => ?_
  refine okOrTC_bind (okOrTC_pyIter _) fun elements => ?_
  exact okOrTC_bind (okOrTC_exceptMapM _ okOrTC_connectionRecord _) fun connections => rfl

theorem okOrTC_normalizeFeed (data : Json) (limit : Json) :
    okOrTypeConfusion (normalizeFeed data limit) = true := by
  unfold normalizeFeed
  refine okOrTC_bind (okOrTC_pyGet _ _ _) fun elemsJ => ?_
  refine okOrTC_bind (okOrTC_pySliceBound _) fun bound => ?_
  refine okOrTC_bind (okOrTC_pySliceJson _ _) fun sliced => ?_
  refine okOrTC_bind (okOrTC_pyIter _) fun elements => ?_
  exact okOrTC_bind (okOrTC_exceptMapM _ okOrTC_feedPost _) fun posts => rfl

/-- Claim C5: every response normalizer is total over any syntactically
valid JSON payload with respect to missing keys — on every input each
of the five normalizers either succeeds or fails with a type-confusion
message (`TypeError`/`AttributeError`, possible only when a present
value has an untraversable type), and for none of the keys the
normalizers subscript is that failure the `str(KeyError)` of a missing
key, so a missing key at any nesting depth never causes a raise: every
subscript is membership-guarded and every other access is a defaulting
`get`; in particular a profile payload carrying only `firstName` yields
`location`, `industry` and `summary` as empty strings and `experience`,
`education` and `skills` as empty lists. -/
theorem claim_C5_normalizers_total :
    (∀ data u, okOrTypeConfusion (normalizeProfileView data u) = true) ∧
    (∀ data, okOrTypeConfusion (normalizeSearchProfiles data) = true) ∧
    (∀ data, okOrTypeConfusion (normalizeSearchJobs data) = true) ∧
    (∀ data, okOrTypeConfusion (normalizeConnections data) = true) ∧
    (∀ data limit, okOrTypeConfusion (normalizeFeed data limit) = true) ∧
    subscriptedKeys.all (fun k => !(isTypeConfusionError (pyKeyErrorMsg k))) = true ∧
    (∀ (v : Json) (u : String),
      normalizeProfileView (Json.obj [("profile", Json.obj [("firstName", v)])]) u =
        Except.ok (Json.obj [
          ("name", Json.str (pyStr v ++ " ")),
          ("headline", Json.str ""),
          ("summary", Json.str ""),
          ("location", Json.str ""),
          ("industry", Json.str ""),
          ("profile_url", Json.str ("https://www.linkedin.com/in/" ++ u)),
          ("experience", Json.arr []),
          ("education", Json.arr []),
          ("skills", Json.arr [])])) :=
  ⟨okOrTC_normalizeProfileView, okOrTC_normalizeSearchProfiles, okOrTC_normalizeSearchJobs,
   okOrTC_normalizeConnections, okOrTC_normalizeFeed, by decide, profileView_firstName_only⟩
